import Mathlib

/-!
Shallow embedding of the femty-backend order subsystem.

Source files embedded here:
* `src/controllers/orderController.js` — `createOrder`, `getOrderById`,
  `updateOrderStatus`, `updateOrderToPaid`.
* `src/unnamed/part_000` — the order router: `router.put('/:id/pay', protect,
  updateOrderToPaid)` (authenticated, no admin / ownership middleware).
* `src/unnamed/part_001` — the payments router (second version in the file):
  `POST /create-checkout-session` (order creation with computed totals) and
  `POST /webhook` (Stripe event handling).
* `src/models/Product.js` — the product schema; in particular `stock` is
  declared with `min: 0`, and mongoose `Document.save()` runs these
  validators, so a save that would persist a negative stock throws instead.

JavaScript numbers are modelled as `Int` (exact arithmetic; no float
rounding is relevant to the claims).  Mongo documents are modelled as
records in lists keyed by a `Nat` id; `findById` is the first list element
with the given id.  Time (`Date.now()` / `new Date()`) is passed in as an
explicit `Int` parameter.
-/

namespace Femty

/-- The `paymentResult` subdocument stored on an order.  The order controller
stores `{id, status, update_time, email_address}` straight from the request
body; the webhook stores `{id, status, email_address}` (no `update_time`).
Absent fields are `none`. -/
structure PaymentResult where
  id : Option String
  status : Option String
  update_time : Option String
  email_address : Option String
deriving DecidableEq, Repr

/-- Product document (`src/models/Product.js`), restricted to the fields the
order subsystem reads or writes. -/
structure Product where
  id : Nat
  name : String
  price : Int
  stock : Int
  inStock : Bool
deriving DecidableEq, Repr

/-- A line item of an order request (`orderItems` entry in the body of
`POST /api/orders`): product reference, display name, quantity and snapshot
price. -/
structure OrderItem where
  product : Nat
  name : String
  quantity : Int
  price : Int
deriving DecidableEq, Repr

/-- Order document, restricted to the fields the embedded operations touch.
Modelled from the spec where the schema file is absent from `src/`
(`models/Order.js` is required by the controller but not shipped): a new
order starts in status `pending` with `isPaid = false`, `paidAt`,
`paymentResult`, `deliveredAt` unset. -/
structure Order where
  id : Nat
  user : Nat
  orderItems : List OrderItem
  itemsPrice : Int
  shippingPrice : Int
  taxPrice : Int
  totalPrice : Int
  isPaid : Bool
  paidAt : Option Int
  paymentResult : Option PaymentResult
  status : String
  isDelivered : Bool
  deliveredAt : Option Int
deriving DecidableEq, Repr

/-- Authenticated requesting user (`req.user` after the `protect`
middleware): id and role. -/
structure User where
  id : Nat
  role : String
deriving DecidableEq, Repr

/-- Database state: the product and order collections. -/
structure DB where
  products : List Product
  orders : List Order
deriving DecidableEq, Repr

/-- Model of `Product.findById`. -/
def DB.findProduct (db : DB) (pid : Nat) : Option Product :=
  db.products.find? (fun p => p.id = pid)

/-- Model of `Order.findById`. -/
def DB.findOrder (db : DB) (oid : Nat) : Option Order :=
  db.orders.find? (fun o => o.id = oid)

/-- Write back a product document under its id (the persistence step of
`product.save()`, once validation has passed). -/
def DB.putProduct (db : DB) (p : Product) : DB :=
  { db with products := db.products.map (fun q => if q.id = p.id then p else q) }

/-- Write back an order document under its id (`order.save()` /
`findByIdAndUpdate`). -/
def DB.putOrder (db : DB) (o : Order) : DB :=
  { db with orders := db.orders.map (fun q => if q.id = o.id then o else q) }

/-- Request body of `POST /api/orders` (`createOrder`). -/
structure CreateOrderRequest where
  userId : Nat
  orderItems : List OrderItem
  paymentMethod : String
  itemsPrice : Int
  shippingPrice : Int
  taxPrice : Int
  totalPrice : Int
deriving DecidableEq, Repr

/-- Outcome of `createOrder`, mirroring the JSON envelopes of
`orderController.createOrder`: 400 for an empty cart, 404 for a missing
product (message built from `item.name`), 400 for insufficient stock
(message built from `product.name` and `product.stock`), 500 when a
`product.save()` in the decrement loop throws, 201 with the created order on
success. -/
inductive CreateOrderResponse where
  | noItems : CreateOrderResponse
  | productNotFound (itemName : String) : CreateOrderResponse
  | insufficientStock (productName : String) (available : Int) : CreateOrderResponse
  | saveError : CreateOrderResponse
  | success (order : Order) : CreateOrderResponse
deriving DecidableEq, Repr

/-- First pass of `createOrder` (orderController.js lines 28–44): for each
item look the product up; 404 if absent, 400 if `product.stock <
item.quantity`.  No mutation happens in this pass.  Returns `none` when
every line passes. -/
def checkStock (db : DB) : List OrderItem → Option CreateOrderResponse
  | [] => none
  | item :: rest =>
    match db.findProduct item.product with
    | none => some (.productNotFound item.name)
    | some p =>
      if p.stock < item.quantity then some (.insufficientStock p.name p.stock)
      else checkStock db rest

/-- Model of `product.save()` for the decrement loop: `src/models/Product.js`
declares `stock` with `min: 0` and mongoose runs schema validators on
`save()`, so persisting a negative stock throws (surfacing as the
controller's catch-all 500).  A valid document is written back. -/
def saveProduct (db : DB) (p : Product) : Option DB :=
  if p.stock < 0 then none else some (db.putProduct p)

/-- The in-memory mutation of one decrement-loop iteration
(orderController.js lines 61–64): `product.stock -= item.quantity`, and
`inStock = false` exactly when the new stock is 0 (otherwise the flag is
left as it was). -/
def decremented (p : Product) (q : Int) : Product :=
  { p with
    stock := p.stock - q,
    inStock := if p.stock - q = 0 then false else p.inStock }

/-- Second pass of `createOrder` (orderController.js lines 59–66): re-fetch
each product, apply `decremented`, and save.  A thrown save (or a vanished
product) aborts the loop; mutations already saved persist.  Returns the
resulting state and whether the loop completed. -/
def decrementStock (db : DB) : List OrderItem → DB × Bool
  | [] => (db, true)
  | item :: rest =>
    match db.findProduct item.product with
    | none => (db, false)
    | some p =>
      match saveProduct db (decremented p item.quantity) with
      | none => (db, false)
      | some db' => decrementStock db' rest

/-- Model of `orderController.createOrder` (lines 7–80): reject an empty cart;
validate every line item before any mutation; persist the order with the
request's price fields verbatim; then decrement stock per item.  `oid` is
the id Mongo generates for the new order.  The order document is created
*before* the decrement loop, so it persists even when a decrement save
throws (500). -/
def createOrder (db : DB) (req : CreateOrderRequest) (oid : Nat) :
    CreateOrderResponse × DB :=
  if req.orderItems.isEmpty then (.noItems, db)
  else
    match checkStock db req.orderItems with
    | some e => (e, db)
    | none =>
      let order : Order :=
        { id := oid, user := req.userId, orderItems := req.orderItems,
          itemsPrice := req.itemsPrice, shippingPrice := req.shippingPrice,
          taxPrice := req.taxPrice, totalPrice := req.totalPrice,
          isPaid := false, paidAt := none, paymentResult := none,
          status := "pending", isDelivered := false, deliveredAt := none }
      let db1 : DB := { db with orders := db.orders ++ [order] }
      let r := decrementStock db1 req.orderItems
      (if r.2 then .success order else .saveError, r.1)

/-- Outcome of `getOrderById`: 404, 403, or 200 with the order. -/
inductive GetOrderResponse where
  | notFound : GetOrderResponse
  | forbidden : GetOrderResponse
  | ok (order : Order) : GetOrderResponse
deriving DecidableEq, Repr

/-- Model of `orderController.getOrderById` (lines 108–140): look the order up (404
if absent), then reject with 403 unless the requester owns the order or has
role `admin`. -/
def getOrderById (db : DB) (oid : Nat) (u : User) : GetOrderResponse :=
  match db.findOrder oid with
  | none => .notFound
  | some o =>
    if o.user ≠ u.id ∧ u.role ≠ "admin" then .forbidden
    else .ok o

/-- Outcome of the order mutation endpoints (`updateOrderStatus`,
`updateOrderToPaid`): 404 or 200 with the saved order. -/
inductive UpdateResponse where
  | notFound : UpdateResponse
  | ok (order : Order) : UpdateResponse
deriving DecidableEq, Repr

/-- Model of `orderController.updateOrderStatus` (lines 193–227): 404 if absent;
otherwise set `status` to the supplied value unconditionally, and when that
value is `'delivered'` additionally set `isDelivered = true` and
`deliveredAt = Date.now()`. -/
def updateOrderStatus (db : DB) (oid : Nat) (newStatus : String) (now : Int) :
    UpdateResponse × DB :=
  match db.findOrder oid with
  | none => (.notFound, db)
  | some o =>
    let o1 : Order := { o with status := newStatus }
    let o2 : Order :=
      if newStatus = "delivered" then
        { o1 with isDelivered := true, deliveredAt := some now }
      else o1
    (.ok o2, db.putOrder o2)

/-- Request body of `PUT /api/orders/:id/pay`: the four payment-result
fields the controller copies verbatim. -/
structure PayBody where
  id : Option String
  status : Option String
  update_time : Option String
  email_address : Option String
deriving DecidableEq, Repr

/-- The mutation `updateOrderToPaid` applies to a found order
(orderController.js lines 243–251): `isPaid = true`, `paidAt = Date.now()`,
the body's four fields copied verbatim into `paymentResult`, and
`status = 'processing'`. -/
def paidOrder (o : Order) (body : PayBody) (now : Int) : Order :=
  { o with
    isPaid := true,
    paidAt := some now,
    paymentResult := some
      { id := body.id, status := body.status,
        update_time := body.update_time,
        email_address := body.email_address },
    status := "processing" }

/-- Model of `orderController.updateOrderToPaid` (lines 232–267): 404 if absent;
otherwise apply `paidOrder` and save.  The controller never reads
`req.user`. -/
def updateOrderToPaid (db : DB) (oid : Nat) (body : PayBody) (now : Int) :
    UpdateResponse × DB :=
  match db.findOrder oid with
  | none => (.notFound, db)
  | some o => (.ok (paidOrder o body now), db.putOrder (paidOrder o body now))

/-- Erase the `paidAt` timestamp of an order, for stating what is preserved
when a payment mutation is replayed at a different wall-clock time. -/
def Order.scrubPaidAt (o : Order) : Order :=
  { o with paidAt := none }

/-- Erase every order's `paidAt` timestamp in a database state. -/
def DB.scrubPaidAt (db : DB) : DB :=
  { db with orders := db.orders.map Order.scrubPaidAt }

/-- The route `router.put('/:id/pay', protect, updateOrderToPaid)`
(`src/unnamed/part_000` line 23): after authentication the request goes
straight to the controller, which ignores the authenticated user entirely —
there is no `admin` middleware and no ownership comparison. -/
def routeUpdateOrderToPaid (db : DB) (_u : User) (oid : Nat) (body : PayBody)
    (now : Int) : UpdateResponse × DB :=
  updateOrderToPaid db oid body now

/-- A line item of the checkout-session request body (`items` entry in
`POST /api/payments/create-checkout-session`, second router version in
`src/unnamed/part_001`): no product reference, just name / quantity /
price / image. -/
structure CheckoutItem where
  name : String
  quantity : Int
  price : Int
deriving DecidableEq, Repr

/-- Model of `itemsTotal = items.reduce((sum, item) => sum + item.price * item.quantity, 0)`
(`src/unnamed/part_001` line 277). -/
def itemsTotal (items : List CheckoutItem) : Int :=
  items.foldl (fun sum item => sum + item.price * item.quantity) 0

/-- The `Order.create` call of `POST /api/payments/create-checkout-session`
(second version, `src/unnamed/part_001` lines 277–303): `itemsPrice` is the
computed items total, `shippingPrice` the delivery fee, `taxPrice` 0 and
`totalPrice` the items total plus the delivery fee.  Line items carry the
request's name/quantity/price with no product reference (modelled with
product reference 0 since the Lean `OrderItem` keeps the field). -/
def createCheckoutSessionOrder (userId : Nat) (items : List CheckoutItem)
    (deliveryFee : Int) (oid : Nat) : Order :=
  { id := oid, user := userId,
    orderItems := items.map (fun item =>
      { product := 0, name := item.name, quantity := item.quantity,
        price := item.price }),
    itemsPrice := itemsTotal items,
    shippingPrice := deliveryFee,
    taxPrice := 0,
    totalPrice := itemsTotal items + deliveryFee,
    isPaid := false, paidAt := none, paymentResult := none,
    status := "pending", isDelivered := false, deliveredAt := none }

/-- Modelled from the spec: the administrative catalog operation
`updateProduct` (its controller is required by the product router in
`src/unnamed/part_001` but the file is absent from `src/`).  Per the spec a
catalog price edit mutates only the product record — here, the price of the
product with the given id.  Orders are not touched. -/
def updateProductPrice (db : DB) (pid : Nat) (newPrice : Int) : DB :=
  { db with products := db.products.map (fun p =>
      if p.id = pid then { p with price := newPrice } else p) }

/-- A Stripe checkout session as seen by the webhook / verify handlers:
payment-intent id, customer email, and the order correlation key from
`session.metadata.orderId` (`none` models both a missing key and the falsy
empty string). -/
structure StripeSession where
  id : String
  payment_intent : Option String
  customerEmail : Option String
  metadataOrderId : Option Nat
deriving DecidableEq, Repr

/-- The webhook events the handler distinguishes (`event.type` switch). -/
inductive StripeEvent where
  | checkoutSessionCompleted (s : StripeSession) : StripeEvent
  | paymentIntentFailed (paymentIntentId : String) : StripeEvent
  | other (eventType : String) : StripeEvent
deriving DecidableEq, Repr

/-- Outcome of `POST /api/payments/webhook`: 400 on signature mismatch,
otherwise `res.json({received: true})`. -/
inductive WebhookResponse where
  | signatureError : WebhookResponse
  | received : WebhookResponse
deriving DecidableEq, Repr

/-- The mutation the webhook's `checkout.session.completed` branch applies
to the correlated order (`src/unnamed/part_001` lines 548–561):
`isPaid = true`, `paidAt = new Date()`, `status = 'processing'`, and
`paymentResult` rebuilt from the session (status string `'completed'`, no
`update_time`). -/
def sessionPaidOrder (o : Order) (s : StripeSession) (now : Int) : Order :=
  { o with
    isPaid := true,
    paidAt := some now,
    status := "processing",
    paymentResult := some
      { id := s.payment_intent, status := some "completed",
        update_time := none, email_address := s.customerEmail } }

/-- Model of `POST /api/payments/webhook` (second router version,
`src/unnamed/part_001` lines 529–586): reject with 400 when
`stripe.webhooks.constructEvent` throws (modelled by `sigValid`).  On
`checkout.session.completed`, when the session metadata carries an orderId,
`Order.findByIdAndUpdate` unconditionally sets `isPaid = true`,
`paidAt = new Date()`, `status = 'processing'` and overwrites
`paymentResult` with the session's data (status string `'completed'`, no
`update_time`); a missing order makes the update a no-op.  On
`payment_intent.payment_failed` the handler only logs.  Every handled
branch ends in `res.json({received: true})`. -/
def webhook (db : DB) (sigValid : Bool) (event : StripeEvent) (now : Int) :
    WebhookResponse × DB :=
  if !sigValid then (.signatureError, db)
  else
    match event with
    | .checkoutSessionCompleted s =>
      match s.metadataOrderId with
      | none => (.received, db)
      | some oid =>
        match db.findOrder oid with
        | none => (.received, db)
        | some o => (.received, db.putOrder (sessionPaidOrder o s now))
    | .paymentIntentFailed _ => (.received, db)
    | .other _ => (.received, db)

/-! Concrete fixtures, used to evaluate the theorems on explicit inputs. -/

/-- Fixture: a catalog product with stock 5 and a consistent `inStock`. -/
def rice : Product :=
  { id := 1, name := "rice", price := 5, stock := 5, inStock := true }

/-- Fixture: a database holding only the `rice` product. -/
def catalogDB : DB := { products := [rice], orders := [] }

/-- Fixture: an unpaid pending order with id 7 owned by user 9. -/
def pendingOrder : Order :=
  { id := 7, user := 9, orderItems := [], itemsPrice := 0, shippingPrice := 0,
    taxPrice := 0, totalPrice := 0, isPaid := false, paidAt := none,
    paymentResult := none, status := "pending", isDelivered := false,
    deliveredAt := none }

/-- Fixture: a database holding only `pendingOrder`. -/
def orderDB : DB := { products := [], orders := [pendingOrder] }

/-- Fixture: a `PUT /:id/pay` body. -/
def samplePayBody : PayBody :=
  { id := some "pi_1", status := some "COMPLETED", update_time := some "t1",
    email_address := some "a@b.c" }

/-- Fixture: `pendingOrder` after an earlier payment confirmation at time
10. -/
def alreadyPaidOrder : Order :=
  { pendingOrder with
    isPaid := true, paidAt := some 10, status := "processing",
    paymentResult := some
      { id := some "pi_0", status := some "paid", update_time := none,
        email_address := some "a@b.c" } }

/-- Fixture: a database holding only `alreadyPaidOrder`. -/
def paidDB : DB := { products := [], orders := [alreadyPaidOrder] }

/-- Fixture: a completed Stripe checkout session correlated to order 7. -/
def sampleSession : StripeSession :=
  { id := "cs_1", payment_intent := some "pi_2", customerEmail := some "x@y.z",
    metadataOrderId := some 7 }

/-- Fixture: a create-order request whose price breakdown is inconsistent
(`10 ≠ 1 + 2 + 3`) and whose line-item price 99 disagrees with the catalog
price 5 of `rice`. -/
def overpricedReq : CreateOrderRequest :=
  { userId := 9,
    orderItems := [{ product := 1, name := "rice", quantity := 1, price := 99 }],
    paymentMethod := "stripe", itemsPrice := 1, shippingPrice := 2,
    taxPrice := 3, totalPrice := 10 }

/-- Fixture: the order `createOrder` persists for `overpricedReq` under
generated id 100. -/
def overpricedOrder : Order :=
  { id := 100, user := 9,
    orderItems := [{ product := 1, name := "rice", quantity := 1, price := 99 }],
    itemsPrice := 1, shippingPrice := 2, taxPrice := 3, totalPrice := 10,
    isPaid := false, paidAt := none, paymentResult := none,
    status := "pending", isDelivered := false, deliveredAt := none }

/-- Fixture: a request for 6 units of `rice` (only 5 in stock). -/
def excessiveReq : CreateOrderRequest :=
  { userId := 9,
    orderItems := [{ product := 1, name := "rice", quantity := 6, price := 5 }],
    paymentMethod := "card", itemsPrice := 30, shippingPrice := 0,
    taxPrice := 0, totalPrice := 30 }

/-- Fixture: a line item taking the whole stock of `rice`. -/
def exactItem : OrderItem :=
  { product := 1, name := "rice", quantity := 5, price := 5 }

/-- Fixture: a request whose single line item is `exactItem`. -/
def exactReq : CreateOrderRequest :=
  { userId := 9, orderItems := [exactItem], paymentMethod := "card",
    itemsPrice := 25, shippingPrice := 0, taxPrice := 0, totalPrice := 25 }

/-- Fixture: a request naming `rice` twice, 3 units each (6 > 5 in total,
but each line passes the per-line check). -/
def duplicatedReq : CreateOrderRequest :=
  { userId := 9,
    orderItems :=
      [{ product := 1, name := "rice", quantity := 3, price := 5 },
       { product := 1, name := "rice", quantity := 3, price := 5 }],
    paymentMethod := "card", itemsPrice := 30, shippingPrice := 0,
    taxPrice := 0, totalPrice := 30 }

/-- Fixture: an authenticated user who owns no order and is not an admin. -/
def stranger : User := { id := 42, role := "user" }

/-- Fixture: an administrator. -/
def adminUser : User := { id := 1, role := "admin" }

/-! Helper lemmas about the document store. -/

/-- A successful `find?` under an id predicate pins the id. -/
theorem id_eq_of_findOrder {db : DB} {oid : Nat} {o : Order}
    (h : db.findOrder oid = some o) : o.id = oid := by
  have := List.find?_some h
  simpa using this

/-- A successful product lookup pins the id. -/
theorem id_eq_of_findProduct {db : DB} {pid : Nat} {p : Product}
    (h : db.findProduct pid = some p) : p.id = pid := by
  have := List.find?_some h
  simpa using this

/-- Looking an id up after replacing that id's documents yields the
replacement exactly when the id was present (list form, orders). -/
theorem find?_map_put_order (l : List Order) (o' : Order) (oid : Nat)
    (h : o'.id = oid) :
    (l.map (fun q => if q.id = o'.id then o' else q)).find?
        (fun q => q.id = oid)
      = (l.find? (fun q => q.id = oid)).map (fun _ => o') := by
  induction l with
  | nil => rfl
  | cons a l ih =>
    by_cases hka : a.id = o'.id
    · have hk : a.id = oid := by rw [hka, h]
      simp [List.find?, hka, hk, h]
    · have hk : ¬ a.id = oid := fun hc => hka (by rw [hc, ← h])
      simp only [List.map_cons]
      rw [if_neg hka]
      simp [List.find?, hk, ih]

/-- Same statement lifted to `DB.putOrder` / `DB.findOrder`. -/
theorem findOrder_putOrder (db : DB) (o' : Order) (oid : Nat)
    (h : o'.id = oid) :
    (db.putOrder o').findOrder oid = (db.findOrder oid).map (fun _ => o') := by
  simpa [DB.putOrder, DB.findOrder] using
    find?_map_put_order db.orders o' oid h

/-- Looking an id up after replacing that id's documents yields the
replacement exactly when the id was present (list form, products). -/
theorem find?_map_put_product (l : List Product) (p' : Product) (pid : Nat)
    (h : p'.id = pid) :
    (l.map (fun q => if q.id = p'.id then p' else q)).find?
        (fun q => q.id = pid)
      = (l.find? (fun q => q.id = pid)).map (fun _ => p') := by
  induction l with
  | nil => rfl
  | cons a l ih =>
    by_cases hka : a.id = p'.id
    · have hk : a.id = pid := by rw [hka, h]
      simp [List.find?, hka, hk, h]
    · have hk : ¬ a.id = pid := fun hc => hka (by rw [hc, ← h])
      simp only [List.map_cons]
      rw [if_neg hka]
      simp [List.find?, hk, ih]

/-- Same statement lifted to `DB.putProduct` / `DB.findProduct`. -/
theorem findProduct_putProduct (db : DB) (p' : Product) (pid : Nat)
    (h : p'.id = pid) :
    (db.putProduct p').findProduct pid
      = (db.findProduct pid).map (fun _ => p') := by
  simpa [DB.putProduct, DB.findProduct] using
    find?_map_put_product db.products p' pid h

/-- Replacing the same document twice is the same as replacing it once. -/
theorem putOrder_putOrder (db : DB) (o : Order) :
    (db.putOrder o).putOrder o = db.putOrder o := by
  unfold DB.putOrder
  simp only [List.map_map]
  refine congrArg _ (List.map_congr_left fun a _ => ?_)
  by_cases hka : a.id = o.id <;> simp [hka]

/-- C6 (counterexample): the claim demands `ForbiddenError` for a non-owner
non-admin "regardless of whether the referenced order exists", but
`getOrderById` checks existence first: for an absent order id a non-owner
non-admin caller gets 404, not 403. -/
theorem getOrderById_absent_returns_notFound :
    stranger.role ≠ "admin" ∧
    getOrderById orderDB 99 stranger = .notFound ∧
    getOrderById orderDB 99 stranger ≠ .forbidden := by
  decide

/-- C6 (amended): when the order exists, a requester who is neither its
owner nor an administrator gets `ForbiddenError`; when the order is absent,
every requester gets `NotFoundError`. -/
theorem getOrderById_owner_or_admin (db : DB) (oid : Nat) (u : User) :
    (db.findOrder oid = none → getOrderById db oid u = .notFound) ∧
    (∀ o, db.findOrder oid = some o → o.user ≠ u.id → u.role ≠ "admin" →
      getOrderById db oid u = .forbidden) := by
  constructor
  · intro h
    simp [getOrderById, h]
  · intro o h ho hr
    simp [getOrderById, h, ho, hr]

/-- C6 (witness): user 42 with role `user` is refused order 7, owned by
user 9. -/
theorem getOrderById_owner_or_admin_witness :
    getOrderById orderDB 7 stranger = .forbidden :=
  (getOrderById_owner_or_admin orderDB 7 stranger).2 pendingOrder
    (by decide) (by decide) (by decide)

/-- C7: the `/:id/pay` route applies no ownership or role check — its
result is independent of the authenticated user; it fails only with 404
when the order is absent, and on an existing order it marks the order paid
and stores the caller's body verbatim as `paymentResult`. -/
theorem updateOrderToPaid_ignores_user (db : DB) (u u' : User) (oid : Nat)
    (body : PayBody) (now : Int) :
    routeUpdateOrderToPaid db u oid body now
        = routeUpdateOrderToPaid db u' oid body now ∧
    (db.findOrder oid = none →
      routeUpdateOrderToPaid db u oid body now = (.notFound, db)) ∧
    (∀ o, db.findOrder oid = some o →
      routeUpdateOrderToPaid db u oid body now
          = (.ok (paidOrder o body now), db.putOrder (paidOrder o body now)) ∧
        (paidOrder o body now).isPaid = true ∧
        (paidOrder o body now).paidAt = some now ∧
        (paidOrder o body now).status = "processing" ∧
        (paidOrder o body now).paymentResult = some
          { id := body.id, status := body.status,
            update_time := body.update_time,
            email_address := body.email_address }) := by
  refine ⟨rfl, ?_, ?_⟩
  · intro h
    simp [routeUpdateOrderToPaid, updateOrderToPaid, h]
  · intro o h
    simp [routeUpdateOrderToPaid, updateOrderToPaid, paidOrder, h]

/-- C7 (witness): a non-owner non-admin and an administrator get the very
same outcome marking order 7 paid. -/
theorem updateOrderToPaid_ignores_user_witness :
    routeUpdateOrderToPaid orderDB stranger 7 samplePayBody 5
        = routeUpdateOrderToPaid orderDB adminUser 7 samplePayBody 5 ∧
    routeUpdateOrderToPaid orderDB stranger 7 samplePayBody 5
        = (.ok (paidOrder pendingOrder samplePayBody 5),
           orderDB.putOrder (paidOrder pendingOrder samplePayBody 5)) :=
  ⟨(updateOrderToPaid_ignores_user orderDB stranger adminUser 7
      samplePayBody 5).1,
   ((updateOrderToPaid_ignores_user orderDB stranger adminUser 7
      samplePayBody 5).2.2 pendingOrder (by decide)).1⟩

/-- C9: `updateOrderStatus` is 404 on an absent order; otherwise it sets
`status` to the supplied value unconditionally, sets `isDelivered` /
`deliveredAt = now` exactly when the new status is `'delivered'`, and
leaves the payment fields, id and owner untouched. -/
theorem updateOrderStatus_spec (db : DB) (oid : Nat) (st : String)
    (now : Int) :
    (db.findOrder oid = none → updateOrderStatus db oid st now = (.notFound, db)) ∧
    (∀ o, db.findOrder oid = some o →
      ∃ o', updateOrderStatus db oid st now = (.ok o', db.putOrder o') ∧
        o'.status = st ∧
        (st = "delivered" → o'.isDelivered = true ∧ o'.deliveredAt = some now) ∧
        (st ≠ "delivered" → o'.isDelivered = o.isDelivered ∧
          o'.deliveredAt = o.deliveredAt) ∧
        o'.isPaid = o.isPaid ∧ o'.paidAt = o.paidAt ∧
        o'.paymentResult = o.paymentResult ∧ o'.id = o.id ∧
        o'.user = o.user) := by
  constructor
  · intro h
    simp [updateOrderStatus, h]
  · intro o h
    by_cases hd : st = "delivered"
    · exact ⟨{ o with status := st, isDelivered := true, deliveredAt := some now },
        by simp [updateOrderStatus, h, hd], rfl, fun _ => ⟨rfl, rfl⟩,
        fun hc => absurd hd hc, rfl, rfl, rfl, rfl, rfl⟩
    · exact ⟨{ o with status := st },
        by simp [updateOrderStatus, h, hd], rfl,
        fun hc => absurd hc hd, fun _ => ⟨rfl, rfl⟩, rfl, rfl, rfl, rfl, rfl⟩

/-- C9 (witness): marking order 7 `delivered` at time 33. -/
theorem updateOrderStatus_spec_witness :
    ∃ o', updateOrderStatus orderDB 7 "delivered" 33 = (.ok o', orderDB.putOrder o') ∧
      o'.status = "delivered" ∧
      ("delivered" = "delivered" → o'.isDelivered = true ∧ o'.deliveredAt = some 33) ∧
      ("delivered" ≠ "delivered" → o'.isDelivered = pendingOrder.isDelivered ∧
        o'.deliveredAt = pendingOrder.deliveredAt) ∧
      o'.isPaid = pendingOrder.isPaid ∧ o'.paidAt = pendingOrder.paidAt ∧
      o'.paymentResult = pendingOrder.paymentResult ∧ o'.id = pendingOrder.id ∧
      o'.user = pendingOrder.user :=
  (updateOrderStatus_spec orderDB 7 "delivered" 33).2 pendingOrder (by decide)

/-- C10: a `payment_intent.payment_failed` webhook event with a valid
signature leaves the whole database state unchanged (in particular every
order's `isPaid`, `paidAt`, `paymentResult` and `status`) and the handler
responds `received: true`. -/
theorem webhook_failed_payment_no_mutation (db : DB) (intentId : String)
    (now : Int) :
    webhook db true (.paymentIntentFailed intentId) now = (.received, db) :=
  rfl

/-- Replaying a replacement whose document differs from the first only in
`paidAt` leaves the `paidAt`-scrubbed state unchanged. -/
theorem scrub_put_put (db : DB) (o1 o2 : Order) (hid : o2.id = o1.id)
    (hsc : o2.scrubPaidAt = o1.scrubPaidAt) :
    ((db.putOrder o1).putOrder o2).scrubPaidAt = (db.putOrder o1).scrubPaidAt := by
  unfold DB.putOrder DB.scrubPaidAt
  simp only [List.map_map]
  refine congrArg _ (List.map_congr_left fun a _ => ?_)
  by_cases hka : a.id = o1.id
  · simp [Function.comp, hka, hid, hsc]
  · simp [Function.comp, hka, hid]

/-- C1 (counterexample): replaying `updateOrderToPaid` with the same
payment result at a later wall-clock time does not leave the order in the
same final state as a single invocation — `paidAt` is refreshed from
`Date.now()` on every call (second run at time 1 turns `paidAt` from
`some 0` into `some 1`). -/
theorem updateOrderToPaid_replay_changes_paidAt :
    (((updateOrderToPaid (updateOrderToPaid orderDB 7 samplePayBody 0).2
          7 samplePayBody 1).2.findOrder 7).map Order.paidAt = some (some 1)) ∧
    (((updateOrderToPaid orderDB 7 samplePayBody 0).2.findOrder 7).map
        Order.paidAt = some (some 0)) ∧
    (updateOrderToPaid (updateOrderToPaid orderDB 7 samplePayBody 0).2
        7 samplePayBody 1).2
      ≠ (updateOrderToPaid orderDB 7 samplePayBody 0).2 := by
  decide

/-- C1 (amended): replaying `updateOrderToPaid` with the same payment
result leaves every field of the final state except `paidAt` as a single
invocation does (`isPaid`, `paymentResult`, `status` included), and when
the two invocations carry the same `Date.now()` value the final states and
responses coincide exactly; `paidAt` always reflects the latest
invocation's clock. -/
theorem updateOrderToPaid_idempotent_up_to_paidAt (db : DB) (oid : Nat)
    (body : PayBody) (t1 t2 : Int) :
    ((updateOrderToPaid (updateOrderToPaid db oid body t1).2
        oid body t2).2).scrubPaidAt
      = ((updateOrderToPaid db oid body t1).2).scrubPaidAt ∧
    (t1 = t2 →
      updateOrderToPaid (updateOrderToPaid db oid body t1).2 oid body t2
        = updateOrderToPaid db oid body t1) := by
  cases h : db.findOrder oid with
  | none =>
    constructor
    · simp [updateOrderToPaid, h]
    · intro _
      simp [updateOrderToPaid, h]
  | some o =>
    have hid0 : o.id = oid := id_eq_of_findOrder h
    have hid : (paidOrder o body t1).id = oid := hid0
    have hfind2 : (db.putOrder (paidOrder o body t1)).findOrder oid
        = some (paidOrder o body t1) := by
      rw [findOrder_putOrder _ _ _ hid, h]
      rfl
    constructor
    · simp only [updateOrderToPaid, h, hfind2]
      exact scrub_put_put db (paidOrder o body t1)
        (paidOrder (paidOrder o body t1) body t2) rfl rfl
    · intro ht
      subst ht
      simp only [updateOrderToPaid, h, hfind2]
      have hpp : paidOrder (paidOrder o body t1) body t1
          = paidOrder o body t1 := rfl
      rw [hpp, putOrder_putOrder]

/-- C1 (witness): replaying the payment of order 7 with the same body and
the same clock value reproduces the single-invocation outcome exactly. -/
theorem updateOrderToPaid_idempotent_up_to_paidAt_witness :
    updateOrderToPaid (updateOrderToPaid orderDB 7 samplePayBody 5).2
        7 samplePayBody 5
      = updateOrderToPaid orderDB 7 samplePayBody 5 :=
  (updateOrderToPaid_idempotent_up_to_paidAt orderDB 7 samplePayBody 5 5).2
    rfl

/-- C5 (counterexample): a `checkout.session.completed` webhook event for
order 7, which is already paid with `paidAt = some 10`, still answers
`received: true` but does not keep the original `paidAt`/`paymentResult`:
the handler's unconditional `findByIdAndUpdate` resets `paidAt` to the
delivery time 20 and overwrites `paymentResult` with the session's data. -/
theorem webhook_overwrites_paid_order :
    alreadyPaidOrder.isPaid = true ∧
    alreadyPaidOrder.paidAt = some 10 ∧
    (webhook paidDB true (.checkoutSessionCompleted sampleSession) 20).1
      = .received ∧
    ((webhook paidDB true
        (.checkoutSessionCompleted sampleSession) 20).2.findOrder 7).map
        Order.paidAt = some (some 20) ∧
    ((webhook paidDB true
        (.checkoutSessionCompleted sampleSession) 20).2.findOrder 7).map
        Order.paymentResult ≠ some alreadyPaidOrder.paymentResult := by
  decide

/-- C5 (amended): on a `checkout.session.completed` event correlated to an
existing order — already paid or not — the handler responds
`received: true` (no error to the provider) and the order ends up paid in
status `processing`, but its `paidAt` is reset to the webhook processing
time and its `paymentResult` is overwritten with the event session's data
rather than kept at the original values. -/
theorem webhook_completed_overwrites (db : DB) (s : StripeSession)
    (oid : Nat) (o : Order) (now : Int)
    (hm : s.metadataOrderId = some oid) (h : db.findOrder oid = some o) :
    (webhook db true (.checkoutSessionCompleted s) now).1 = .received ∧
    (webhook db true (.checkoutSessionCompleted s) now).2.findOrder oid
      = some (sessionPaidOrder o s now) ∧
    (sessionPaidOrder o s now).isPaid = true ∧
    (sessionPaidOrder o s now).paidAt = some now ∧
    (sessionPaidOrder o s now).status = "processing" ∧
    (sessionPaidOrder o s now).paymentResult = some
      { id := s.payment_intent, status := some "completed",
        update_time := none, email_address := s.customerEmail } := by
  have hid0 : o.id = oid := id_eq_of_findOrder h
  have hid : (sessionPaidOrder o s now).id = oid := hid0
  refine ⟨?_, ?_, rfl, rfl, rfl, rfl⟩
  · simp [webhook, hm, h]
  · simp only [webhook, hm, h, Bool.not_true, Bool.false_eq_true, if_false]
    rw [findOrder_putOrder _ _ _ hid, h]
    rfl

/-- C5 (witness): the overwrite on the concrete already-paid order 7. -/
theorem webhook_completed_overwrites_witness :
    (webhook paidDB true (.checkoutSessionCompleted sampleSession) 20).1
      = .received ∧
    (webhook paidDB true
        (.checkoutSessionCompleted sampleSession) 20).2.findOrder 7
      = some (sessionPaidOrder alreadyPaidOrder sampleSession 20) :=
  ⟨(webhook_completed_overwrites paidDB sampleSession 7 alreadyPaidOrder 20
      (by decide) (by decide)).1,
   (webhook_completed_overwrites paidDB sampleSession 7 alreadyPaidOrder 20
      (by decide) (by decide)).2.1⟩

/-- The validation pass can only produce the two validation errors. -/
theorem checkStock_some_shape (db : DB) (items : List OrderItem)
    (e : CreateOrderResponse) (h : checkStock db items = some e) :
    (∃ n, e = .productNotFound n) ∨ ∃ n a, e = .insufficientStock n a := by
  induction items with
  | nil => simp [checkStock] at h
  | cons item rest ih =>
    cases hf : db.findProduct item.product with
    | none =>
      simp [checkStock, hf] at h
      exact Or.inl ⟨item.name, h.symm⟩
    | some p =>
      by_cases hlt : p.stock < item.quantity
      · simp [checkStock, hf, hlt] at h
        exact Or.inr ⟨p.name, p.stock, h.symm⟩
      · simp only [checkStock, hf, if_neg hlt] at h
        exact ih h

/-- When some line item is invalid, the validation pass reports the first
offending line: a 404 carrying the item's name, or a 400 carrying the
product's name and remaining stock. -/
theorem checkStock_of_bad (db : DB) (items : List OrderItem)
    (h : ∃ item ∈ items, db.findProduct item.product = none ∨
      ∃ p, db.findProduct item.product = some p ∧ p.stock < item.quantity) :
    (∃ item ∈ items, db.findProduct item.product = none ∧
      checkStock db items = some (.productNotFound item.name)) ∨
    (∃ item ∈ items, ∃ p, db.findProduct item.product = some p ∧
      p.stock < item.quantity ∧
      checkStock db items = some (.insufficientStock p.name p.stock)) := by
  induction items with
  | nil => simp at h
  | cons item rest ih =>
    cases hf : db.findProduct item.product with
    | none =>
      exact Or.inl ⟨item, List.mem_cons_self item rest, hf,
        by simp [checkStock, hf]⟩
    | some p =>
      by_cases hlt : p.stock < item.quantity
      · exact Or.inr ⟨item, List.mem_cons_self item rest, p, hf, hlt,
          by simp [checkStock, hf, hlt]⟩
      · have h' : ∃ i ∈ rest, db.findProduct i.product = none ∨
            ∃ q, db.findProduct i.product = some q ∧ q.stock < i.quantity := by
          obtain ⟨i, hi, hbad⟩ := h
          rcases List.mem_cons.mp hi with rfl | hi'
          · rcases hbad with hnone | ⟨q, hq, hqlt⟩
            · rw [hf] at hnone
              cases hnone
            · rw [hf] at hq
              cases hq
              exact absurd hqlt hlt
          · exact ⟨i, hi', hbad⟩
        have hred : checkStock db (item :: rest) = checkStock db rest := by
          simp only [checkStock, hf, if_neg hlt]
        rcases ih h' with ⟨i, hi, h1, h2⟩ | ⟨i, hi, q, h1, h2, h3⟩
        · exact Or.inl ⟨i, List.mem_cons_of_mem item hi, h1, by rw [hred]; exact h2⟩
        · exact Or.inr ⟨i, List.mem_cons_of_mem item hi, q, h1, h2,
            by rw [hred]; exact h3⟩

/-- C2: when any line item references a missing product or asks for more
than that product's current stock, `createOrder` leaves the database
untouched — every product's stock unchanged and no order persisted — and
answers with the matching validation error: `productNotFound` carrying the
item's name, or `insufficientStock` carrying the product's name and its
remaining quantity. -/
theorem createOrder_allOrNothing (db : DB) (req : CreateOrderRequest)
    (oid : Nat)
    (h : ∃ item ∈ req.orderItems, db.findProduct item.product = none ∨
      ∃ p, db.findProduct item.product = some p ∧ p.stock < item.quantity) :
    (createOrder db req oid).2 = db ∧
    ((∃ item ∈ req.orderItems, db.findProduct item.product = none ∧
        (createOrder db req oid).1 = .productNotFound item.name) ∨
     (∃ item ∈ req.orderItems, ∃ p, db.findProduct item.product = some p ∧
        p.stock < item.quantity ∧
        (createOrder db req oid).1 = .insufficientStock p.name p.stock)) := by
  have hne : req.orderItems.isEmpty = false := by
    obtain ⟨item0, hmem0, _⟩ := h
    cases hl : req.orderItems with
    | nil => rw [hl] at hmem0; cases hmem0
    | cons a l => rfl
  rcases checkStock_of_bad db req.orderItems h with
    ⟨i, hi, h1, h2⟩ | ⟨i, hi, p, h1, h2, h3⟩
  · constructor
    · simp [createOrder, hne, h2]
    · exact Or.inl ⟨i, hi, h1, by simp [createOrder, hne, h2]⟩
  · constructor
    · simp [createOrder, hne, h3]
    · exact Or.inr ⟨i, hi, p, h1, h2, by simp [createOrder, hne, h3]⟩

/-- C2 (witness): ordering 6 units of `rice` while only 5 are in stock. -/
theorem createOrder_allOrNothing_witness :
    (createOrder catalogDB excessiveReq 100).2 = catalogDB ∧
    ((∃ item ∈ excessiveReq.orderItems,
        catalogDB.findProduct item.product = none ∧
        (createOrder catalogDB excessiveReq 100).1
          = .productNotFound item.name) ∨
     (∃ item ∈ excessiveReq.orderItems, ∃ p,
        catalogDB.findProduct item.product = some p ∧
        p.stock < item.quantity ∧
        (createOrder catalogDB excessiveReq 100).1
          = .insufficientStock p.name p.stock)) :=
  createOrder_allOrNothing catalogDB excessiveReq 100
    ⟨{ product := 1, name := "rice", quantity := 6, price := 5 },
     by decide, Or.inr ⟨rice, by decide, by decide⟩⟩

/-- Every product stored by the decrement loop passed the `min: 0` save
validator, so non-negative stock is preserved across the loop. -/
theorem decrementStock_nonneg (items : List OrderItem) :
    ∀ db : DB, (∀ p ∈ db.products, 0 ≤ p.stock) →
      ∀ p' ∈ (decrementStock db items).1.products, 0 ≤ p'.stock := by
  induction items with
  | nil =>
    intro db hdb
    exact hdb
  | cons item rest ih =>
    intro db hdb
    cases hf : db.findProduct item.product with
    | none =>
      simpa [decrementStock, hf] using hdb
    | some p =>
      by_cases hneg : (decremented p item.quantity).stock < 0
      · simpa [decrementStock, hf, saveProduct, hneg] using hdb
      · have hred : decrementStock db (item :: rest)
            = decrementStock (db.putProduct (decremented p item.quantity)) rest := by
          simp only [decrementStock, hf, saveProduct, if_neg hneg]
        rw [hred]
        apply ih
        intro q hq
        rcases List.mem_map.mp hq with ⟨a, ha, rfl⟩
        by_cases hai : a.id = (decremented p item.quantity).id
        · rw [if_pos hai]
          omega
        · rw [if_neg hai]
          exact hdb a ha

/-- C3: a single sequential `createOrder` call — duplicate products among
the line items included — preserves non-negative stock: starting from a
state where every stock is non-negative, every product's stock after the
call is still non-negative, and consequently the total quantity removed
from any product never exceeds its starting stock. -/
theorem createOrder_stock_nonneg (db : DB) (req : CreateOrderRequest)
    (oid : Nat) (hdb : ∀ p ∈ db.products, 0 ≤ p.stock) :
    (∀ p' ∈ (createOrder db req oid).2.products, 0 ≤ p'.stock) ∧
    (∀ pid p p', db.findProduct pid = some p →
      (createOrder db req oid).2.findProduct pid = some p' →
      p.stock - p'.stock ≤ p.stock) := by
  have key : ∀ p' ∈ (createOrder db req oid).2.products, 0 ≤ p'.stock := by
    cases hne : req.orderItems.isEmpty with
    | true => simpa [createOrder, hne] using hdb
    | false =>
      cases hcs : checkStock db req.orderItems with
      | some e => simpa [createOrder, hne, hcs] using hdb
      | none =>
        have hred : (createOrder db req oid).2
            = (decrementStock
                { db with orders := db.orders ++
                    [{ id := oid, user := req.userId,
                       orderItems := req.orderItems,
                       itemsPrice := req.itemsPrice,
                       shippingPrice := req.shippingPrice,
                       taxPrice := req.taxPrice, totalPrice := req.totalPrice,
                       isPaid := false, paidAt := none, paymentResult := none,
                       status := "pending", isDelivered := false,
                       deliveredAt := none }] }
                req.orderItems).1 := by
          simp [createOrder, hne, hcs]
        rw [hred]
        exact decrementStock_nonneg req.orderItems _ hdb
  refine ⟨key, ?_⟩
  intro pid p p' hp hp'
  have h1 : 0 ≤ p'.stock := key p' (List.mem_of_find?_eq_some hp')
  omega

/-- C3 (witness): the request naming `rice` twice (3 + 3 > 5) still never
drives the stock negative — the first line's save brings it to 2 and the
second save is rejected by the validator, so the stock stays at 2. -/
theorem createOrder_stock_nonneg_witness :
    (∀ p' ∈ (createOrder catalogDB duplicatedReq 100).2.products,
      0 ≤ p'.stock) ∧
    (∀ pid p p', catalogDB.findProduct pid = some p →
      (createOrder catalogDB duplicatedReq 100).2.findProduct pid = some p' →
      p.stock - p'.stock ≤ p.stock) :=
  createOrder_stock_nonneg catalogDB duplicatedReq 100 (by decide)

/-- Reduction of `createOrder` on a request with a single valid line item:
the order is persisted and the one product is decremented and saved. -/
theorem createOrder_singleton (db : DB) (req : CreateOrderRequest)
    (item : OrderItem) (p : Product) (oid : Nat)
    (hreq : req.orderItems = [item])
    (hfi : db.findProduct item.product = some p)
    (hnlt : ¬ p.stock < item.quantity)
    (hnneg : ¬ (decremented p item.quantity).stock < 0) :
    ∃ o, createOrder db req oid
      = (.success o,
         ({ db with orders := db.orders ++ [o] } : DB).putProduct
           (decremented p item.quantity)) := by
  refine ⟨{ id := oid, user := req.userId, orderItems := req.orderItems,
            itemsPrice := req.itemsPrice, shippingPrice := req.shippingPrice,
            taxPrice := req.taxPrice, totalPrice := req.totalPrice,
            isPaid := false, paidAt := none, paymentResult := none,
            status := "pending", isDelivered := false,
            deliveredAt := none }, ?_⟩
  have hne : req.orderItems.isEmpty = false := by rw [hreq]; rfl
  have hcs : checkStock db req.orderItems = none := by
    rw [hreq]
    simp [checkStock, hfi, hnlt]
  have hd : ∀ l : List Order,
      decrementStock { products := db.products, orders := l } req.orderItems
        = (DB.putProduct { products := db.products, orders := l }
            (decremented p item.quantity), true) := by
    intro l
    have hfi1 : DB.findProduct { products := db.products, orders := l }
        item.product = some p := hfi
    rw [hreq]
    simp [decrementStock, hfi1, saveProduct, hnneg]
  simp only [createOrder, hne, Bool.false_eq_true, if_false, hcs]
  rw [hd]
  simp

/-- C8: a successful single-line `createOrder` of quantity `q` (`1 ≤ q ≤ s`)
against a product with stock `s` and a consistent `inStock` flag leaves the
product with stock `s - q`, with `inStock = false` exactly when the new
stock is 0. -/
theorem createOrder_single_line_stock (db : DB) (pid : Nat) (p : Product)
    (item : OrderItem) (req : CreateOrderRequest) (oid : Nat)
    (hreq : req.orderItems = [item]) (hitem : item.product = pid)
    (hp : db.findProduct pid = some p) (hq1 : 1 ≤ item.quantity)
    (hle : item.quantity ≤ p.stock)
    (hin : p.inStock = decide (0 < p.stock)) :
    (∃ o, (createOrder db req oid).1 = .success o) ∧
    (∃ p', (createOrder db req oid).2.findProduct pid = some p' ∧
      p'.stock = p.stock - item.quantity ∧
      (p'.inStock = false ↔ p'.stock = 0)) := by
  have hfi : db.findProduct item.product = some p := by rw [hitem]; exact hp
  have hnlt : ¬ p.stock < item.quantity := not_lt.mpr hle
  have hnneg : ¬ (decremented p item.quantity).stock < 0 := by
    show ¬ p.stock - item.quantity < 0
    omega
  obtain ⟨o, ho⟩ := createOrder_singleton db req item p oid hreq hfi hnlt hnneg
  have hid0 : p.id = pid := id_eq_of_findProduct hp
  have hid : (decremented p item.quantity).id = pid := hid0
  constructor
  · exact ⟨o, by rw [ho]⟩
  · refine ⟨decremented p item.quantity, ?_, rfl, ?_⟩
    · rw [ho]
      show (({ db with orders := db.orders ++ [o] } : DB).putProduct
        (decremented p item.quantity)).findProduct pid = _
      rw [findProduct_putProduct _ _ _ hid]
      have hfind1 : ({ db with orders := db.orders ++ [o] } : DB).findProduct pid
          = some p := hp
      rw [hfind1]
      rfl
    · show ((if p.stock - item.quantity = 0 then false else p.inStock) = false
        ↔ p.stock - item.quantity = 0)
      by_cases h0 : p.stock - item.quantity = 0
      · simp [h0]
      · have hpos : 0 < p.stock := by omega
        simp [h0, hin, hpos]

/-- C8 (witness): buying all 5 units of `rice` leaves stock 0 and
`inStock = false`. -/
theorem createOrder_single_line_stock_witness :
    (∃ o, (createOrder catalogDB exactReq 100).1 = .success o) ∧
    (∃ p', (createOrder catalogDB exactReq 100).2.findProduct 1 = some p' ∧
      p'.stock = rice.stock - exactItem.quantity ∧
      (p'.inStock = false ↔ p'.stock = 0)) :=
  createOrder_single_line_stock catalogDB 1 rice exactItem exactReq 100
    rfl rfl (by decide) (by decide) (by decide) (by decide)

/-- A successful `createOrder` persists the request's line items and price
breakdown verbatim. -/
theorem createOrder_success_fields (db : DB) (req : CreateOrderRequest)
    (oid : Nat) (o : Order) (h : (createOrder db req oid).1 = .success o) :
    o.orderItems = req.orderItems ∧ o.itemsPrice = req.itemsPrice ∧
    o.shippingPrice = req.shippingPrice ∧ o.taxPrice = req.taxPrice ∧
    o.totalPrice = req.totalPrice := by
  cases hne : req.orderItems.isEmpty with
  | true => simp [createOrder, hne] at h
  | false =>
    cases hcs : checkStock db req.orderItems with
    | some e =>
      rcases checkStock_some_shape db req.orderItems e hcs with
        ⟨n, rfl⟩ | ⟨n, a, rfl⟩ <;> simp [createOrder, hne, hcs] at h
    | none =>
      simp only [createOrder, hne, Bool.false_eq_true, if_false, hcs] at h
      split at h
      · injection h with h'
        subst h'
        exact ⟨rfl, rfl, rfl, rfl, rfl⟩
      · exact CreateOrderResponse.noConfusion h

/-- C4 (counterexample): `createOrder` persists the client's price
breakdown and snapshot prices without validation: the run below succeeds
although `totalPrice = 10 ≠ 1 + 2 + 3` and although the line item's
snapshot price 99 disagrees with the catalog price 5 of the referenced
product at creation time. -/
theorem createOrder_breakdown_not_enforced :
    (createOrder catalogDB overpricedReq 100).1 = .success overpricedOrder ∧
    overpricedOrder.totalPrice
      ≠ overpricedOrder.itemsPrice + overpricedOrder.shippingPrice
        + overpricedOrder.taxPrice ∧
    catalogDB.findProduct 1 = some rice ∧
    rice.price = 5 ∧
    overpricedOrder.orderItems.map OrderItem.price = [99] := by
  decide

/-- C4 (amended): orders persisted by `createOrder` carry the request's
line items and price fields verbatim, so `totalPrice = itemsPrice +
shippingPrice + taxPrice` holds exactly when the request's breakdown
satisfies it (and the snapshot prices are the request's, not the
catalog's); orders persisted by the checkout-session route always satisfy
the identity (`taxPrice = 0`, `totalPrice = itemsTotal + deliveryFee`);
and a later catalog price edit leaves every persisted order unchanged. -/
theorem order_price_consistency :
    (∀ db req oid o, (createOrder db req oid).1 = .success o →
      o.orderItems = req.orderItems ∧ o.itemsPrice = req.itemsPrice ∧
      o.shippingPrice = req.shippingPrice ∧ o.taxPrice = req.taxPrice ∧
      o.totalPrice = req.totalPrice ∧
      (o.totalPrice = o.itemsPrice + o.shippingPrice + o.taxPrice ↔
        req.totalPrice = req.itemsPrice + req.shippingPrice + req.taxPrice)) ∧
    (∀ uid items fee oid,
      (createCheckoutSessionOrder uid items fee oid).totalPrice
        = (createCheckoutSessionOrder uid items fee oid).itemsPrice
          + (createCheckoutSessionOrder uid items fee oid).shippingPrice
          + (createCheckoutSessionOrder uid items fee oid).taxPrice) ∧
    (∀ db pid newPrice,
      (updateProductPrice db pid newPrice).orders = db.orders) := by
  refine ⟨?_, ?_, ?_⟩
  · intro db req oid o h
    obtain ⟨h1, h2, h3, h4, h5⟩ := createOrder_success_fields db req oid o h
    refine ⟨h1, h2, h3, h4, h5, ?_⟩
    rw [h2, h3, h4, h5]
  · intro uid items fee oid
    show itemsTotal items + fee = itemsTotal items + fee + 0
    omega
  · intro db pid newPrice
    rfl

/-- C4 (witness): the persisted inconsistent order carries exactly the
request's total. -/
theorem order_price_consistency_witness :
    overpricedOrder.totalPrice = overpricedReq.totalPrice :=
  (order_price_consistency.1 catalogDB overpricedReq 100 overpricedOrder
    (by decide)).2.2.2.2.1

end Femty
